import Mathlib

/-!
Verification development for the AwSW Workshop Uploader
(4onen/AwSW-Workshop-Uploader), a Rust application built from
`src/main.rs`, `src/item_info.rs`, `src/file_field.rs`,
`src/my_steamworks.rs` and `src/err_dialog_types.rs`.

The Rust code is shallowly embedded: paths (`PathBuf`) are strings,
file-system probes (`Path::exists` / `is_file` / `is_dir`) are read from
an explicit file-system valuation `FS`, fallible conversions return
`Except`, and the `iced` update function becomes a pure function from
state and message to the next state plus the command it launches.
-/

/-- Kind of file-system object a path can name, mirroring what the Rust
standard library distinguishes for the probes this program uses:
`Path::is_file` (regular file), `Path::is_dir` (directory), with `other`
covering existing objects that are neither. -/
inductive FsNode
  | file
  | dir
  | other
deriving DecidableEq, Repr

/-- Valuation of the ambient file system at the moment a probe runs:
each path names at most one object.  The field `empty_none` records the
operating-system guarantee that the empty path (`PathBuf::new()`) names
nothing, so `Path::new("").exists()` is `false`. -/
structure FS where
  node : String → Option FsNode
  empty_none : node "" = none

/-- Rust `Path::exists`: the path names some object. -/
def FS.pathExists (fs : FS) (p : String) : Bool :=
  (fs.node p).isSome

/-- Rust `Path::is_file`: the path names a regular file. -/
def FS.isFile (fs : FS) (p : String) : Bool :=
  decide (fs.node p = some FsNode.file)

/-- Rust `Path::is_dir`: the path names a directory. -/
def FS.isDir (fs : FS) (p : String) : Bool :=
  decide (fs.node p = some FsNode.dir)

/-- Embedding of `FileField` (`src/file_field.rs:8`): a wrapper around a
`PathBuf`, here a string.  The dialog-driven `select_file`/`select_dir`
mutations are handled at the `ItemInfoState.update` level. -/
structure FileField where
  path : String
deriving DecidableEq, Repr

/-- Embedding of `FileField::new` (`src/file_field.rs:13`): an empty path. -/
def FileField.new : FileField := ⟨""⟩

/-- Embedding of `impl From<String> for FileField` (`src/file_field.rs:77`). -/
def FileField.fromString (p : String) : FileField := ⟨p⟩

/-- Embedding of `ItemInfoMessage` (`src/item_info.rs:8`): the form-edit
events of the item editing screen. -/
inductive ItemInfoMessage
  | EditName (s : String)
  | EditPreviewImage (s : String)
  | EditTargetFolder (s : String)
  | BrowsePreviewImage
  | BrowseTargetFolder
  | EditChangeNotes (s : String)
deriving DecidableEq, Repr

/-- Embedding of `ItemInfoState` (`src/item_info.rs:18`): the freely
editable draft of the upload payload. -/
structure ItemInfoState where
  name : String
  preview_image : FileField
  target_folder : FileField
  change_notes : String
deriving DecidableEq, Repr

/-- Embedding of `impl Default for ItemInfoState` (`src/item_info.rs:25`):
the blank draft. -/
def ItemInfoState.default : ItemInfoState :=
  ⟨"", FileField.new, FileField.new, ""⟩

/-- Embedding of `ItemInfoState::update` (`src/item_info.rs:37`).  The
`Browse*` arms open a native file dialog; its outcome is the explicit
parameter `dlg` (`some p` when the user picked path `p`, `none` when the
dialog was dismissed or failed, in which case the field is unchanged). -/
def ItemInfoState.update (dlg : Option String) (message : ItemInfoMessage)
    (s : ItemInfoState) : ItemInfoState :=
  match message with
  | ItemInfoMessage.EditName new_name => { s with name := new_name }
  | ItemInfoMessage.EditPreviewImage new_path =>
      { s with preview_image := FileField.fromString new_path }
  | ItemInfoMessage.EditTargetFolder new_path =>
      { s with target_folder := FileField.fromString new_path }
  | ItemInfoMessage.BrowsePreviewImage =>
      match dlg with
      | some p => { s with preview_image := ⟨p⟩ }
      | none => s
  | ItemInfoMessage.BrowseTargetFolder =>
      match dlg with
      | some p => { s with target_folder := ⟨p⟩ }
      | none => s
  | ItemInfoMessage.EditChangeNotes new_notes => { s with change_notes := new_notes }

/-- Embedding of `ItemInfo` (`src/item_info.rs:87`): the validated upload
payload.  The two `PathBuf` fields are strings here. -/
structure ItemInfo where
  name : String
  preview_image : String
  target_folder : String
  change_notes : String
deriving DecidableEq, Repr

/-- Embedding of `impl From<ItemInfo> for ItemInfoState`
(`src/item_info.rs:94`): rebuilds an editable draft from a validated
payload. -/
def ItemInfoState.fromItemInfo (value : ItemInfo) : ItemInfoState :=
  ⟨value.name, FileField.fromString value.preview_image,
    FileField.fromString value.target_folder, value.change_notes⟩

/-- Embedding of `impl TryFrom<ItemInfoState> for ItemInfo`
(`src/item_info.rs:116`).  The file-system probes of the source
(`value.preview_image.path.exists()` etc.) read the valuation `fs`.
Rust's `String::is_empty` / `to_string_lossy().is_empty()` tests become
equality with `""`.  The source's early-`return` of the target-folder
check after the preview block is factored into the local
`target_check`. -/
def ItemInfo.tryFrom (fs : FS) (value : ItemInfoState) : Except String ItemInfo :=
  if value.name = "" then
    Except.error "Name cannot be empty."
  else
    let preview_field_exists := fs.pathExists value.preview_image.path
    let has_preview := preview_field_exists && fs.isFile value.preview_image.path
    let target_check : Except String ItemInfo :=
      if fs.pathExists value.target_folder.path = false then
        if value.target_folder.path = "" then
          Except.error "Target folder cannot be empty."
        else
          Except.error ("Target folder \"" ++ value.target_folder.path ++ "\" does not exist.")
      else
        Except.ok ⟨value.name, value.preview_image.path, value.target_folder.path,
          value.change_notes⟩
    if has_preview = false then
      if value.preview_image.path ≠ "" then
        if preview_field_exists = false then
          Except.error ("Preview image \"" ++ value.preview_image.path ++ "\" does not exist.")
        else
          Except.error ("Preview image \"" ++ value.preview_image.path ++ "\" is not a file.")
      else
        target_check
    else
      target_check

/-- Embedding of `steamworks::PublishedFileId`: a newtype around the
64-bit item identifier (field `.0` in Rust is `.val` here). -/
structure PublishedFileId where
  val : Nat
deriving DecidableEq, Repr

/-- Embedding of `steamworks::SteamError` restricted to the variants this
program constructs or tests (`NoMatch`, `Cancelled`, `AccessDenied`);
every other variant of the native error taxonomy, which the program
stores and displays opaquely, is collapsed into `other` with a code. -/
inductive SteamError
  | NoMatch
  | Cancelled
  | AccessDenied
  | other (code : Nat)
deriving DecidableEq, Repr

/-- Embedding of `steamworks::FileType` restricted to what the program
tests: `Community` and, collapsed into `other`, every non-community
variant. -/
inductive FileType
  | Community
  | other
deriving DecidableEq, Repr

/-- Embedding of `steamworks::QueryResult` restricted to the fields this
program reads: the item title, its file type, and the consuming app id
(`consumer_app_id : Option<AppId>`; the app id payload is a `Nat`).
Fields the program only prints in debug helpers are omitted. -/
structure QueryResult where
  title : String
  file_type : FileType
  consumer_app_id : Option Nat
deriving DecidableEq, Repr

/-- Embedding of `impl From<QueryResult> for ItemInfo`
(`src/item_info.rs:105`): only the title is carried over, all other
fields start empty. -/
def ItemInfo.fromQueryResult (value : QueryResult) : ItemInfo :=
  ⟨value.title, "", "", ""⟩

/-- Embedding of the result pipeline of `WorkshopClient::get_item_info`
(`src/my_steamworks.rs:130`).  The asynchronous plumbing is abstracted
into two inputs: `delivered` is what the one-shot channel receiver
observes (`none` models `oneshot::Canceled`, i.e. the producer was
dropped without sending; `some r` is the value the fetch callback sent,
which is already the first query result or `SteamError::NoMatch`), and
`confirm` is the answer the external `confirm_dialog` collaborator would
give if consulted.  The chain mirrors the source exactly: map `Canceled`
to `SteamError::Cancelled`; reject any file type other than `Community`
with `SteamError::NoMatch`; if the found item's `consumer_app_id`
differs from this session's app id, require confirmation, mapping a
declined dialog to `SteamError::Cancelled`; finally convert the query
result into an `ItemInfo`. -/
def WorkshopClient.get_item_info (app_id : Nat) (confirm : Bool)
    (delivered : Option (Except SteamError QueryResult)) : Except SteamError ItemInfo :=
  let awaited : Except SteamError QueryResult :=
    match delivered with
    | none => Except.error SteamError.Cancelled
    | some r => r
  let communityOnly : Except SteamError QueryResult :=
    awaited.bind fun res =>
      match res.file_type with
      | FileType.Community => Except.ok res
      | _ => Except.error SteamError.NoMatch
  let confirmed : Except SteamError QueryResult :=
    communityOnly.bind fun res =>
      if res.consumer_app_id ≠ some app_id then
        if confirm then Except.ok res else Except.error SteamError.Cancelled
      else
        Except.ok res
  confirmed.map ItemInfo.fromQueryResult

/-- Embedding of `Message` (`src/main.rs:16`): the events delivered to
the application's update function. -/
inductive Message
  | SetExistingId (s : String)
  | EditItemData (m : ItemInfoMessage)
  | ReceiveFoundItemInfo (info : ItemInfo)
  | ReceiveItemId (id : PublishedFileId)
  | ReceiveSteamError (err : SteamError)
  | Proceed
  | GoBack
  | TermsLinkPressed
deriving DecidableEq, Repr

/-- Embedding of `ModelState` (`src/main.rs:44`): the workflow state
machine's tagged union of states. -/
inductive ModelState
  | Initial (idstr : String)
  | ExistingIdSearching (item_id : PublishedFileId) (last_error : Option SteamError)
  | ItemForm (maybe_id : Option PublishedFileId) (item_info : ItemInfoState)
  | CreatingItem (item_info : ItemInfo)
  | CreationError (item_info : ItemInfo) (err : SteamError)
  | SendingItem (item_id : PublishedFileId) (item_info : ItemInfo)
  | SendingError (item_id : PublishedFileId) (item_info : ItemInfo) (err : SteamError)
  | Done (item_id : PublishedFileId)
deriving DecidableEq, Repr

/-- Command returned by the update function: either no command
(`Command::none()`) or one of the three `Command::perform` calls that
launch an asynchronous `WorkshopClient` operation
(`src/main.rs:121`, `src/main.rs:126`, `src/main.rs:172`).  Immediate
side effects of the update function (opening URLs, log prints, the
terms overlay) produce no command and are not part of this value. -/
inductive Cmd
  | none
  | getItemInfo (id : PublishedFileId)
  | createItem
  | sendItem (id : PublishedFileId) (info : ItemInfo)
deriving DecidableEq, Repr

/-- Embedding of `str::parse::<u64>` as used on the entry screen's id
text (`src/main.rs:61` and `src/main.rs:169`): an optional leading `+`
followed by at least one ASCII digit, with the value required to fit in
64 bits (`PosOverflow` otherwise); anything else fails.  Characters are
taken from the string's character list. -/
def parseU64 (s : String) : Option Nat :=
  match s.data with
  | [] => none
  | c :: cs =>
    let digits := if c = '+' then cs else c :: cs
    if digits = [] then none
    else if digits.all Char.isDigit then
      let n := digits.foldl (fun a ch => a * 10 + (ch.toNat - 48)) 0
      if n < 2 ^ 64 then some n else none
    else none

/-- Embedding of `Model::update` (`src/main.rs:155`).  Inputs beyond the
state and message: `fs` is the file-system valuation read by the draft
validation on `Proceed` from the form, and `dlg` is the native file
dialog's outcome for `Browse*` edits.  The source's early discriminant
test for `TermsLinkPressed` (which only opens the terms overlay) is the
leading `if`.  Each arm returns the next state and the command the
source launches; arms whose source bodies are side effects only
(`println!`, `open_url`) leave the state unchanged with no command. -/
def Model.update (fs : FS) (dlg : Option String) (state : ModelState)
    (message : Message) : ModelState × Cmd :=
  if message = Message.TermsLinkPressed then
    (state, Cmd.none)
  else
    match state, message with
    | ModelState.Initial _, Message.SetExistingId idstr =>
        (ModelState.Initial idstr, Cmd.none)
    | ModelState.Initial idstr, Message.Proceed =>
        match parseU64 idstr with
        | some n =>
            (ModelState.ExistingIdSearching ⟨n⟩ none, Cmd.getItemInfo ⟨n⟩)
        | none =>
            (ModelState.ItemForm none ItemInfoState.default, Cmd.none)
    | ModelState.Initial idstr, _ => (ModelState.Initial idstr, Cmd.none)
    | ModelState.ExistingIdSearching item_id _, Message.GoBack =>
        (ModelState.Initial (toString item_id.val), Cmd.none)
    | ModelState.ExistingIdSearching item_id _, Message.ReceiveFoundItemInfo item_info =>
        (ModelState.ItemForm (some item_id) (ItemInfoState.fromItemInfo item_info), Cmd.none)
    | ModelState.ExistingIdSearching item_id _, Message.ReceiveSteamError err =>
        (ModelState.ExistingIdSearching item_id (some err), Cmd.none)
    | ModelState.ExistingIdSearching item_id last_error, _ =>
        (ModelState.ExistingIdSearching item_id last_error, Cmd.none)
    | ModelState.ItemForm maybe_id item_info, Message.EditItemData item_info_message =>
        (ModelState.ItemForm maybe_id (ItemInfoState.update dlg item_info_message item_info),
          Cmd.none)
    | ModelState.ItemForm maybe_id item_info, Message.Proceed =>
        match ItemInfo.tryFrom fs item_info with
        | Except.ok info =>
            match maybe_id with
            | some item_id =>
                (ModelState.SendingItem item_id info, Cmd.sendItem item_id info)
            | none =>
                (ModelState.CreatingItem info, Cmd.createItem)
        | Except.error _ =>
            (ModelState.ItemForm maybe_id item_info, Cmd.none)
    | ModelState.ItemForm maybe_id _, Message.GoBack =>
        (ModelState.Initial
          (match maybe_id with
           | some id => toString id.val
           | none => ""), Cmd.none)
    | ModelState.ItemForm maybe_id item_info, _ =>
        (ModelState.ItemForm maybe_id item_info, Cmd.none)
    | ModelState.CreatingItem item_info, Message.ReceiveItemId item_id =>
        (ModelState.SendingItem item_id item_info, Cmd.sendItem item_id item_info)
    | ModelState.CreatingItem item_info, Message.ReceiveSteamError err =>
        (ModelState.CreationError item_info err, Cmd.none)
    | ModelState.CreatingItem item_info, _ =>
        (ModelState.CreatingItem item_info, Cmd.none)
    | ModelState.CreationError item_info _, Message.GoBack =>
        (ModelState.ItemForm none (ItemInfoState.fromItemInfo item_info), Cmd.none)
    | ModelState.CreationError item_info err, _ =>
        (ModelState.CreationError item_info err, Cmd.none)
    | ModelState.SendingItem item_id item_info, Message.ReceiveItemId incoming_id =>
        if incoming_id ≠ item_id then
          (ModelState.SendingItem item_id item_info, Cmd.none)
        else
          (ModelState.Done item_id, Cmd.none)
    | ModelState.SendingItem item_id item_info, Message.ReceiveSteamError err =>
        (ModelState.SendingError item_id item_info err, Cmd.none)
    | ModelState.SendingItem item_id item_info, _ =>
        (ModelState.SendingItem item_id item_info, Cmd.none)
    | ModelState.SendingError item_id item_info _, Message.GoBack =>
        (ModelState.ItemForm (some item_id) (ItemInfoState.fromItemInfo item_info), Cmd.none)
    | ModelState.SendingError item_id item_info err, _ =>
        (ModelState.SendingError item_id item_info err, Cmd.none)
    | ModelState.Done _, Message.GoBack =>
        (ModelState.Initial "", Cmd.none)
    | ModelState.Done item_id, _ =>
        (ModelState.Done item_id, Cmd.none)

/-- Phase of the dedicated `SingleClientExecutor` worker thread
(`steamworks_worker`, `src/my_steamworks.rs:40`): `polling` while inside
the callback-pumping `while` loop (or about to re-check its condition),
`parked` while blocked in `park_timeout`, `retired` once
`Arc::try_unwrap` succeeded and the thread returned. -/
inductive WorkerPhase
  | polling
  | parked
  | retired
deriving DecidableEq, Repr

/-- Observable state of the dispatcher bookkeeping in
`src/my_steamworks.rs`: `counter` is the mathematical value of the
`watchers : Arc<AtomicUsize>` counter (modelled as an integer so that
going negative is expressible, i.e. an underflow of the unsigned
`fetch_sub` would show up as `counter < 0`); `live` is the number of
live `SingleClientExecutorWatcher` guards; `others` is the number of
`SingleClientExecutor` handles held outside guards (the `WorkshopClient`
and its clones); `phase` is the worker thread's phase.  The strong count
of the `Arc` is `1 + live + others` (the worker's own reference plus one
reference inside each guard's executor handle plus each other handle). -/
structure ExecState where
  counter : Int
  live : Nat
  others : Nat
  phase : WorkerPhase
deriving DecidableEq, Repr

/-- State right after `start_executor` (`src/my_steamworks.rs:26`): the
counter is zero, no guard exists, exactly one executor handle (the one
returned, kept by the `WorkshopClient`) exists besides the worker's own
reference, and the worker thread enters its loop. -/
def ExecState.init : ExecState :=
  ⟨0, 0, 1, WorkerPhase.polling⟩

/-- One observable step of the dispatcher bookkeeping, each constructor
mapped to the source:
`watch` is `SingleClientExecutorWatcher::new` (`src/my_steamworks.rs:61`)
on an executor handle cloned from a live one (`CallbackSender::get_channel`
clones `self.callback_executor`), whose `executor.watch()` does
`fetch_add(1)` and unparks the worker — one guard appears, holding the
cloned handle, so `others` is unchanged;
`unwatch` is `Drop for SingleClientExecutorWatcher`
(`src/my_steamworks.rs:67`), whose `unwatch` does `fetch_sub(1)`; the
guard and the handle inside it disappear — a drop can only happen to a
live guard;
`cloneHandle` and `dropHandle` are `Clone`/`Drop` of a
`SingleClientExecutor` handle outside any guard (e.g. cloning the
`WorkshopClient`);
`pump` is one `run_callbacks()` iteration of the inner `while` loop,
taken only while the loaded counter is positive;
`parkSelf` is the worker leaving the `while` loop (its condition
`watchers.load > 0` failed) into `park_timeout`;
`wakeRetire` is `Arc::try_unwrap` succeeding after the park — possible
exactly when the worker's reference is the last one, i.e. no guard and
no other handle exists — after which the thread returns;
`wakeContinue` is `try_unwrap` failing (some other reference exists) and
the loop re-entering the polling check. -/
inductive ExecStep : ExecState → ExecState → Prop
  | watch (s : ExecState) (h : 1 ≤ s.others) :
      ExecStep s { s with counter := s.counter + 1, live := s.live + 1 }
  | unwatch (s : ExecState) (h : 1 ≤ s.live) :
      ExecStep s { s with counter := s.counter - 1, live := s.live - 1 }
  | cloneHandle (s : ExecState) (h : 1 ≤ s.others) :
      ExecStep s { s with others := s.others + 1 }
  | dropHandle (s : ExecState) (h : 1 ≤ s.others) :
      ExecStep s { s with others := s.others - 1 }
  | pump (s : ExecState) (h : s.phase = WorkerPhase.polling) (hc : 0 < s.counter) :
      ExecStep s s
  | parkSelf (s : ExecState) (h : s.phase = WorkerPhase.polling) (hc : s.counter ≤ 0) :
      ExecStep s { s with phase := WorkerPhase.parked }
  | wakeRetire (s : ExecState) (h : s.phase = WorkerPhase.parked)
      (hw : s.live = 0 ∧ s.others = 0) :
      ExecStep s { s with phase := WorkerPhase.retired }
  | wakeContinue (s : ExecState) (h : s.phase = WorkerPhase.parked) :
      ExecStep s { s with phase := WorkerPhase.polling }

/-- States of the dispatcher bookkeeping reachable from the state
produced by `start_executor` via any interleaving of guard
constructions/drops, handle clones/drops, and worker-thread steps. -/
def ExecReachable (s : ExecState) : Prop :=
  Relation.ReflTransGen ExecStep ExecState.init s

/-- File system in which no path names anything. -/
def fsEmpty : FS :=
  ⟨fun _ => none, rfl⟩

/-- File system in which the single path `"tf"` names a regular file. -/
def fsTargetFile : FS :=
  ⟨fun p => if p = "tf" then some FsNode.file else none, by decide⟩

/-- File system in which the single path `"tf"` names a directory. -/
def fsTargetDir : FS :=
  ⟨fun p => if p = "tf" then some FsNode.dir else none, by decide⟩

/-- Sample draft: non-empty name, empty preview path, target path `"tf"`. -/
def stSample : ItemInfoState :=
  ⟨"a", ⟨""⟩, ⟨"tf"⟩, ""⟩

/-- Sample validated payload matching `stSample`. -/
def infoSample : ItemInfo :=
  ⟨"a", "", "tf", ""⟩

/-- Sample community query result whose consuming app id is `5`. -/
def qrSample : QueryResult :=
  ⟨"t", FileType.Community, some 5⟩

/-- Sample non-community query result whose consuming app id is `5`. -/
def qrOtherSample : QueryResult :=
  ⟨"t", FileType.other, some 5⟩

theorem FS.pathExists_empty (fs : FS) : fs.pathExists "" = false := by
  simp [FS.pathExists, fs.empty_none]

theorem FS.pathExists_of_isFile (fs : FS) (p : String) (h : fs.isFile p = true) :
    fs.pathExists p = true := by
  simp only [FS.isFile, decide_eq_true_eq] at h
  simp [FS.pathExists, h]

theorem FS.pathExists_of_isDir (fs : FS) (p : String) (h : fs.isDir p = true) :
    fs.pathExists p = true := by
  simp only [FS.isDir, decide_eq_true_eq] at h
  simp [FS.pathExists, h]

/-- C4: draft-to-ItemInfo conversion checks the rules in the fixed order
name, then preview, then target, and returns the specific error message
of the first violated rule: an empty name yields exactly the error
"Name cannot be empty." whatever the other fields hold; with a valid
name, a non-empty preview path that is not an existing file yields the
matching preview error whatever the target holds; with valid name and
preview, a non-existing target path yields the matching target error;
and a non-empty name with an empty-or-existing-file preview and an
existing-directory target yields `Ok` carrying the draft's four fields
unchanged. -/
theorem tryFrom_checks_name_preview_target_in_order (fs : FS) (st : ItemInfoState) :
    (st.name = "" → ItemInfo.tryFrom fs st = Except.error "Name cannot be empty.")
    ∧ (st.name ≠ "" → st.preview_image.path ≠ "" → fs.isFile st.preview_image.path = false →
        ItemInfo.tryFrom fs st =
          Except.error
            (if fs.pathExists st.preview_image.path = false then
              "Preview image \"" ++ st.preview_image.path ++ "\" does not exist."
            else
              "Preview image \"" ++ st.preview_image.path ++ "\" is not a file."))
    ∧ (st.name ≠ "" → (st.preview_image.path = "" ∨ fs.isFile st.preview_image.path = true) →
        fs.pathExists st.target_folder.path = false →
        ItemInfo.tryFrom fs st =
          Except.error
            (if st.target_folder.path = "" then "Target folder cannot be empty."
            else "Target folder \"" ++ st.target_folder.path ++ "\" does not exist."))
    ∧ (st.name ≠ "" → (st.preview_image.path = "" ∨ fs.isFile st.preview_image.path = true) →
        fs.isDir st.target_folder.path = true →
        ItemInfo.tryFrom fs st =
          Except.ok ⟨st.name, st.preview_image.path, st.target_folder.path, st.change_notes⟩) := by
  refine ⟨fun h1 => ?_, fun h1 h2 h3 => ?_, fun h1 h2 h3 => ?_, fun h1 h2 h3 => ?_⟩
  · simp [ItemInfo.tryFrom, h1]
  · cases hpe : fs.pathExists st.preview_image.path <;>
      simp [ItemInfo.tryFrom, h1, h2, h3, hpe]
  · rcases h2 with h2 | h2
    · by_cases hte : st.target_folder.path = "" <;>
        simp [ItemInfo.tryFrom, h1, h2, h3, hte, FS.pathExists_empty]
    · have hp := FS.pathExists_of_isFile fs st.preview_image.path h2
      by_cases hte : st.target_folder.path = "" <;>
        simp [ItemInfo.tryFrom, h1, h2, h3, hp, hte, FS.pathExists_empty]
  · have ht := FS.pathExists_of_isDir fs st.target_folder.path h3
    rcases h2 with h2 | h2
    · simp [ItemInfo.tryFrom, h1, h2, ht]
    · have hp := FS.pathExists_of_isFile fs st.preview_image.path h2
      simp [ItemInfo.tryFrom, h1, h2, hp, ht]

/-- Witness for C4: concrete drafts exercising each of the three
conjuncts — an empty name, a non-empty missing preview, and a fully
valid draft. -/
theorem tryFrom_checks_name_preview_target_in_order_witness :
    ItemInfo.tryFrom fsEmpty ⟨"", ⟨""⟩, ⟨""⟩, ""⟩ = Except.error "Name cannot be empty."
    ∧ ItemInfo.tryFrom fsEmpty ⟨"a", ⟨"p"⟩, ⟨"tf"⟩, ""⟩ =
        Except.error "Preview image \"p\" does not exist."
    ∧ ItemInfo.tryFrom fsEmpty ⟨"a", ⟨""⟩, ⟨""⟩, ""⟩ =
        Except.error "Target folder cannot be empty."
    ∧ ItemInfo.tryFrom fsEmpty stSample =
        Except.error "Target folder \"tf\" does not exist."
    ∧ ItemInfo.tryFrom fsTargetDir stSample = Except.ok infoSample :=
  ⟨(tryFrom_checks_name_preview_target_in_order fsEmpty ⟨"", ⟨""⟩, ⟨""⟩, ""⟩).1 rfl,
   (tryFrom_checks_name_preview_target_in_order fsEmpty ⟨"a", ⟨"p"⟩, ⟨"tf"⟩, ""⟩).2.1
     (by decide) (by decide) rfl,
   (tryFrom_checks_name_preview_target_in_order fsEmpty ⟨"a", ⟨""⟩, ⟨""⟩, ""⟩).2.2.1
     (by decide) (Or.inl rfl) rfl,
   (tryFrom_checks_name_preview_target_in_order fsEmpty stSample).2.2.1
     (by decide) (Or.inl rfl) rfl,
   (tryFrom_checks_name_preview_target_in_order fsTargetDir stSample).2.2.2
     (by decide) (Or.inl rfl) rfl⟩

/-- Counterexample for C5: in a file system where the target path names
an existing regular file (not a directory), the conversion nevertheless
succeeds — the source only probes `Path::exists` on the target, never
`Path::is_dir`. -/
theorem tryFrom_accepts_existing_nondirectory_target :
    fsTargetFile.pathExists "tf" = true
    ∧ fsTargetFile.isDir "tf" = false
    ∧ stSample.target_folder.path = "tf"
    ∧ ItemInfo.tryFrom fsTargetFile stSample = Except.ok infoSample :=
  ⟨rfl, rfl, rfl, rfl⟩

/-- C5 as amended: draft-to-ItemInfo conversion succeeds only when the
target-content path exists; whether the existing target is a directory
is not checked, so a target that exists but is not a directory is
accepted. -/
theorem tryFrom_ok_requires_target_exists (fs : FS) (st : ItemInfoState) (info : ItemInfo)
    (h : ItemInfo.tryFrom fs st = Except.ok info) :
    fs.pathExists st.target_folder.path = true := by
  by_cases hpe : fs.pathExists st.target_folder.path = true
  · exact hpe
  · exfalso
    simp only [Bool.not_eq_true] at hpe
    simp only [ItemInfo.tryFrom, hpe] at h
    split_ifs at h

/-- Witness for C5 as amended: the sample draft converts successfully
under `fsTargetDir`, whose target path indeed exists. -/
theorem tryFrom_ok_requires_target_exists_witness :
    fsTargetDir.pathExists "tf" = true :=
  tryFrom_ok_requires_target_exists fsTargetDir stSample infoSample rfl

/-- Counterexample for C8: two conversions of the identical draft yield
different validation outcomes when the ambient file system differs —
the conversion probes `Path::exists`/`is_file` on the draft's paths, so
its outcome is not a function of the draft's fields alone. -/
theorem tryFrom_outcome_depends_on_file_system :
    ItemInfo.tryFrom fsEmpty stSample = Except.error "Target folder \"tf\" does not exist."
    ∧ ItemInfo.tryFrom fsTargetDir stSample = Except.ok infoSample
    ∧ Except.error "Target folder \"tf\" does not exist."
        ≠ (Except.ok infoSample : Except String ItemInfo) :=
  ⟨rfl, rfl, fun h => Except.noConfusion h⟩

/-- C8 as amended: draft-to-ItemInfo conversion is a pure function of
the draft's fields together with the file-system observations at the
draft's two paths: two conversions of the identical draft under file
systems agreeing on the draft's preview path and target path yield the
identical validation outcome (no dependence on anything else). -/
theorem tryFrom_pure_in_draft_and_probed_paths (fs1 fs2 : FS) (st : ItemInfoState)
    (hp : fs1.node st.preview_image.path = fs2.node st.preview_image.path)
    (ht : fs1.node st.target_folder.path = fs2.node st.target_folder.path) :
    ItemInfo.tryFrom fs1 st = ItemInfo.tryFrom fs2 st := by
  simp only [ItemInfo.tryFrom, FS.pathExists, FS.isFile, hp, ht]

/-- Witness for C8 as amended: `fsEmpty` and `fsTargetFile` agree on the
blank draft's (empty) paths, so the conversion outcomes coincide. -/
theorem tryFrom_pure_in_draft_and_probed_paths_witness :
    ItemInfo.tryFrom fsEmpty ItemInfoState.default
      = ItemInfo.tryFrom fsTargetFile ItemInfoState.default :=
  tryFrom_pure_in_draft_and_probed_paths fsEmpty fsTargetFile ItemInfoState.default
    (by decide) (by decide)

/-- C9: every draft that successfully converts to an `ItemInfo` is
reproduced exactly by converting that `ItemInfo` back to a draft (same
name, preview path, target path and change notes); consequently the
go-back edges from the create-failed and submit-failed states return to
a form-editing state carrying exactly the user-entered draft. -/
theorem tryFrom_roundtrip_and_goback_preserves_draft (fs : FS) (dlg : Option String)
    (st : ItemInfoState) (info : ItemInfo) (id : PublishedFileId) (err : SteamError)
    (h : ItemInfo.tryFrom fs st = Except.ok info) :
    ItemInfoState.fromItemInfo info = st
    ∧ Model.update fs dlg (ModelState.CreationError info err) Message.GoBack
        = (ModelState.ItemForm none st, Cmd.none)
    ∧ Model.update fs dlg (ModelState.SendingError id info err) Message.GoBack
        = (ModelState.ItemForm (some id) st, Cmd.none) := by
  have h1 : ItemInfoState.fromItemInfo info = st := by
    simp only [ItemInfo.tryFrom] at h
    split_ifs at h
    · injection h with h2
      rw [← h2]
      rfl
    · injection h with h2
      rw [← h2]
      rfl
  refine ⟨h1, ?_, ?_⟩
  · rw [← h1]; rfl
  · rw [← h1]; rfl

/-- Witness for C9: the sample draft converts under `fsTargetDir`, comes
back unchanged, and the two go-back edges rebuild exactly it. -/
theorem tryFrom_roundtrip_and_goback_preserves_draft_witness :
    ItemInfoState.fromItemInfo infoSample = stSample
    ∧ Model.update fsTargetDir none (ModelState.CreationError infoSample SteamError.NoMatch)
        Message.GoBack = (ModelState.ItemForm none stSample, Cmd.none)
    ∧ Model.update fsTargetDir none
        (ModelState.SendingError ⟨7⟩ infoSample SteamError.NoMatch) Message.GoBack
        = (ModelState.ItemForm (some ⟨7⟩) stSample, Cmd.none) :=
  tryFrom_roundtrip_and_goback_preserves_draft fsTargetDir none stSample infoSample ⟨7⟩
    SteamError.NoMatch rfl

/-- C10: the payload built from a successful lookup's query result
carries over only the found item's title as the name, with empty
preview path, target path and change notes; consequently the draft
shown for it never validates without further edits — under every file
system the conversion fails, with the name error if the title is empty
and the empty-target error otherwise. -/
theorem lookup_draft_fields_and_never_validates (q : QueryResult) (fs : FS) :
    (ItemInfo.fromQueryResult q).name = q.title
    ∧ (ItemInfo.fromQueryResult q).preview_image = ""
    ∧ (ItemInfo.fromQueryResult q).target_folder = ""
    ∧ (ItemInfo.fromQueryResult q).change_notes = ""
    ∧ ItemInfo.tryFrom fs (ItemInfoState.fromItemInfo (ItemInfo.fromQueryResult q))
        = Except.error
            (if q.title = "" then "Name cannot be empty." else "Target folder cannot be empty.") := by
  refine ⟨rfl, rfl, rfl, rfl, ?_⟩
  by_cases hq : q.title = "" <;>
    simp [ItemInfo.tryFrom, ItemInfoState.fromItemInfo, ItemInfo.fromQueryResult,
      FileField.fromString, hq, FS.pathExists_empty]

/-- Counterexample for C1: in the entry state with the non-empty,
unparsable text "abc", the proceed event DOES change the state — the
update function's parse-failure arm sends every unparsable text,
non-empty or not, to the form-editing state with a blank draft. -/
theorem initial_unparsable_proceed_transitions :
    Model.update fsEmpty none (ModelState.Initial "abc") Message.Proceed
      = (ModelState.ItemForm none ItemInfoState.default, Cmd.none)
    ∧ ModelState.ItemForm none ItemInfoState.default ≠ ModelState.Initial "abc" :=
  ⟨rfl, fun h => ModelState.noConfusion h⟩

/-- C1 as amended: in the entry state, when the proceed event arrives
with text that does not parse as an item id (whether empty or non-empty
unparsable), the state machine transitions to the form-editing state
with no existing id and a blank draft, launching no command; the inline
"Invalid item ID" message and the withholding of the proceed button for
unparsable non-empty text live in the view layer, not in the update
function. -/
theorem initial_unparsable_proceed_opens_blank_form (fs : FS) (dlg : Option String)
    (s : String) (h : parseU64 s = none) :
    Model.update fs dlg (ModelState.Initial s) Message.Proceed
      = (ModelState.ItemForm none ItemInfoState.default, Cmd.none) := by
  simp [Model.update, h]

/-- Witness for C1 as amended: the unparsable text "abc". -/
theorem initial_unparsable_proceed_opens_blank_form_witness :
    Model.update fsEmpty none (ModelState.Initial "abc") Message.Proceed
      = (ModelState.ItemForm none ItemInfoState.default, Cmd.none) :=
  initial_unparsable_proceed_opens_blank_form fsEmpty none "abc" rfl

/-- Counterexample for C3: the go-back event does NOT navigate out of
the create-waiting and submit-waiting states — in both, every message
other than the expected result or error falls into a wildcard arm that
leaves the state unchanged. -/
theorem goback_ignored_while_creating_or_sending :
    Model.update fsEmpty none (ModelState.CreatingItem infoSample) Message.GoBack
      = (ModelState.CreatingItem infoSample, Cmd.none)
    ∧ Model.update fsEmpty none (ModelState.SendingItem ⟨7⟩ infoSample) Message.GoBack
      = (ModelState.SendingItem ⟨7⟩ infoSample, Cmd.none) :=
  ⟨rfl, rfl⟩

/-- C3 as amended: of the three states parked on an in-flight native
call, only the lookup-waiting state has a go-back edge (returning to the
entry state with the id rendered as text, without cancelling the
in-flight call); in the create-waiting and submit-waiting states the
go-back event causes no transition at all. -/
theorem goback_from_waiting_states (fs : FS) (dlg : Option String)
    (id : PublishedFileId) (e : Option SteamError) (info : ItemInfo) :
    Model.update fs dlg (ModelState.ExistingIdSearching id e) Message.GoBack
      = (ModelState.Initial (toString id.val), Cmd.none)
    ∧ Model.update fs dlg (ModelState.CreatingItem info) Message.GoBack
      = (ModelState.CreatingItem info, Cmd.none)
    ∧ Model.update fs dlg (ModelState.SendingItem id info) Message.GoBack
      = (ModelState.SendingItem id info, Cmd.none) :=
  ⟨rfl, rfl, rfl⟩

/-- C6: in the submit-waiting state, a successful submit result carrying
the same id moves the workflow to the done state, while a result
carrying a different id leaves the state unchanged (the mismatch is
only logged); neither launches a command. -/
theorem sending_item_advances_only_on_matching_id (fs : FS) (dlg : Option String)
    (id incoming : PublishedFileId) (info : ItemInfo) :
    Model.update fs dlg (ModelState.SendingItem id info) (Message.ReceiveItemId incoming)
      = (if incoming = id then ModelState.Done id else ModelState.SendingItem id info,
          Cmd.none) := by
  rcases eq_or_ne incoming id with h | h <;> simp [Model.update, h]

/-- C7: the item-lookup pipeline post-filters a successfully delivered
native result: a non-community file type is rejected as a lookup
failure (`NoMatch`); when the found item's consuming app differs from
the session's app, the outcome follows the external confirmation —
declining makes the lookup fail with the dedicated cancellation error,
which is distinct from the generic lookup-failure error. -/
theorem get_item_info_post_filters (app_id : Nat) (confirm : Bool) (res : QueryResult) :
    (res.file_type ≠ FileType.Community →
      WorkshopClient.get_item_info app_id confirm (some (Except.ok res))
        = Except.error SteamError.NoMatch)
    ∧ (res.file_type = FileType.Community → res.consumer_app_id ≠ some app_id →
      WorkshopClient.get_item_info app_id confirm (some (Except.ok res))
        = if confirm then Except.ok (ItemInfo.fromQueryResult res)
          else Except.error SteamError.Cancelled)
    ∧ SteamError.Cancelled ≠ SteamError.NoMatch := by
  refine ⟨fun h => ?_, fun h hne => ?_, by decide⟩
  · cases hft : res.file_type
    · exact absurd hft h
    · simp [WorkshopClient.get_item_info, hft, Except.bind, Except.map]
  · cases confirm <;>
      simp [WorkshopClient.get_item_info, h, hne, Except.bind, Except.map]

/-- Witness for C7: a community item for app 5 looked up in a session
for app 7 with the confirmation declined yields the cancellation error,
and a non-community item yields the lookup-failure error. -/
theorem get_item_info_post_filters_witness :
    WorkshopClient.get_item_info 7 false (some (Except.ok qrSample))
      = Except.error SteamError.Cancelled
    ∧ WorkshopClient.get_item_info 7 false (some (Except.ok qrOtherSample))
      = Except.error SteamError.NoMatch :=
  ⟨(get_item_info_post_filters 7 false qrSample).2.1 rfl (by decide),
   (get_item_info_post_filters 7 false qrOtherSample).1 (by decide)⟩

/-- C2: along every interleaving of guard constructions/drops, handle
clones/drops and worker steps from the executor's start state, the
interest counter equals the number of live guards (each construction
adds one, each drop removes one), hence it never goes negative — the
unsigned `fetch_sub` never underflows — and whenever the worker thread
has retired, the counter is zero and no guard or handle remains, so a
zero counter is the only condition under which the dispatcher stops
polling and retires. -/
theorem interest_counter_matches_live_guards (s : ExecState) (h : ExecReachable s) :
    s.counter = (s.live : Int) ∧ 0 ≤ s.counter
    ∧ (s.phase = WorkerPhase.retired → s.counter = 0 ∧ s.live = 0 ∧ s.others = 0) := by
  induction h with
  | refl =>
      exact ⟨rfl, le_refl 0, fun hph => WorkerPhase.noConfusion hph⟩
  | @tail b c _ hstep ih =>
      obtain ⟨ih1, ih2, ih3⟩ := ih
      cases hstep with
      | watch hw =>
          refine ⟨?_, ?_, fun hph => absurd (ih3 hph).2.2 (by omega)⟩
          · show b.counter + 1 = ((b.live + 1 : Nat) : Int)
            omega
          · show 0 ≤ b.counter + 1
            omega
      | unwatch hw =>
          refine ⟨?_, ?_, fun hph => absurd (ih3 hph).2.1 (by omega)⟩
          · show b.counter - 1 = ((b.live - 1 : Nat) : Int)
            omega
          · show 0 ≤ b.counter - 1
            omega
      | cloneHandle hw =>
          exact ⟨ih1, ih2, fun hph => absurd (ih3 hph).2.2 (by omega)⟩
      | dropHandle hw =>
          exact ⟨ih1, ih2, fun hph => absurd (ih3 hph).2.2 (by omega)⟩
      | pump hph hc =>
          exact ⟨ih1, ih2, ih3⟩
      | parkSelf hph hc =>
          exact ⟨ih1, ih2, fun hr => WorkerPhase.noConfusion hr⟩
      | wakeRetire hph hw =>
          obtain ⟨hw1, hw2⟩ := hw
          refine ⟨ih1, ih2, fun _ => ⟨?_, hw1, hw2⟩⟩
          show b.counter = 0
          omega
      | wakeContinue hph =>
          exact ⟨ih1, ih2, fun hr => WorkerPhase.noConfusion hr⟩

/-- Witness for C2: the state reached from the start state by one guard
construction satisfies the invariant — its counter, one, equals its one
live guard. -/
theorem interest_counter_matches_live_guards_witness :
    (⟨1, 1, 1, WorkerPhase.polling⟩ : ExecState).counter
      = (((⟨1, 1, 1, WorkerPhase.polling⟩ : ExecState).live : Nat) : Int) :=
  (interest_counter_matches_live_guards ⟨1, 1, 1, WorkerPhase.polling⟩
    (Relation.ReflTransGen.single (ExecStep.watch ExecState.init (by decide)))).1
